import Mathlib

/-!
Shallow embedding of the equipment-lifecycle reconciliation pipeline of the
dashboard repository (files `dados.py`, `atualizar_mes.py`, `Visao_Geral.py`,
`pages/1_Analise_Mensal.py`, `pages/2_Auditoria.py`).

Modelling conventions:
* a pandas row is a Lean structure; a DataFrame is a `List` of rows;
* a nullable cell (`NaN`/`NaT`) is an `Option`; pandas comparisons with a
  null value are `false`, and `groupby.last()` takes the last non-null value
  of each column within the group, as in pandas;
* timestamps are `Int` (any totally ordered representation is enough, the
  code only compares and sorts them);
* `sort_values` with `na_position` defaulting to `last` is modelled by a
  merge sort under a key order that puts `none` after every `some`; ties are
  kept in original order (a deterministic refinement of the unspecified
  pandas tie order, which no theorem below depends on);
* Python `dict(zip(...))` lookup is `dictLookup` (later entries override
  earlier ones); `Series.replace(mapping)` on a cell is `replaceAssunto`;
* rates computed with `/` in Python are rationals here; every claim about
  them concerns the guarded zero-denominator branch, which is unaffected by
  the numeric representation.
-/

namespace Equip

/-- Is `pre` a prefix of `l`? (character-list version of Python `startswith`). -/
def isPrefixList : List Char → List Char → Bool
  | [], _ => true
  | _ :: _, [] => false
  | a :: as, b :: bs => a == b && isPrefixList as bs

/-- Does `hay` contain `sub` as a contiguous substring? (Python `sub in hay`). -/
def listContainsSub (needle : List Char) : List Char → Bool
  | [] => needle.isEmpty
  | c :: rest => isPrefixList needle (c :: rest) || listContainsSub needle rest

/-- `containsStr hay sub` is Python `sub in hay`. -/
def containsStr (hay sub : String) : Bool :=
  listContainsSub sub.data hay.data

/-- Python `str.upper()` (the warehouse keywords compared against are ASCII). -/
def upperStr (s : String) : String :=
  ⟨s.data.map Char.toUpper⟩

/-- `str.replace(r'\.0$', '', regex=True)`: strip one trailing `.0` artifact. -/
def stripDotZero (s : String) : String :=
  if isPrefixList ['0', '.'] s.data.reverse then ⟨s.data.take (s.data.length - 2)⟩ else s

/-- `str.replace(r'\\,', '', regex=True)`: delete every backslash-comma pair. -/
def removeBackslashComma : List Char → List Char
  | [] => []
  | [a] => [a]
  | a :: b :: rest =>
    if a == '\\' && b == ',' then removeBackslashComma rest
    else a :: removeBackslashComma (b :: rest)

/-- Identifier normalization applied to `id_patrimonio` / `PATRIMONIO` columns
in `dados.py` and `atualizar_mes.py`: remove `\,` sequences, then strip a
trailing `.0`. -/
def normalizeId (s : String) : String :=
  stripDotZero ⟨removeBackslashComma s.data⟩

/-- `dict(zip(keys, values))` lookup: the last entry for a key wins, as in a
Python dict built from a sequence of pairs. -/
def dictLookup (pairs : List (String × String)) (k : String) : Option String :=
  (pairs.reverse.find? (fun p => p.1 == k)).map (·.2)

/-- `PADRONIZACAO_ASSUNTO` — the fixed canonical override table, duplicated
verbatim in `dados.py` and `atualizar_mes.py`. -/
def PADRONIZACAO_ASSUNTO : List (String × String) := [
  ("INSTALACAO INTERNET", "INSTALACAO"),
  ("Instalação Internet (descontinuado)", "INSTALACAO"),
  ("Instalação Repetidor Wirelles", "MESH"),
  ("Instalação Serviço Cortesia", "INSTALACAO CORTESIA"),
  ("Instalação de Telefone", "INSTALACAO TELEFONE"),
  ("MANUTENCAO DE REDE", "MANUTENCAO"),
  ("MANUTENÇÃO TÉCNICA", "MANUTENCAO"),
  ("MUDANÇA DE ENDEREÇO", "MUDANCA ENDEREÇO"),
  ("SERVIÇOS TÉCNICOS DIVERSOS", "MESH"),
  ("UPGRADE - EQUIPAMENTO", "UPGRADE"),
  ("0.1.4 RETIRADA DE REPETIDOR WIRELESS", "RETIRADA REPETIDOR"),
  ("0.1.5 RETIRADA ORDEM DE COLETA", "RETIRADA COLETA"),
  ("0.1.6 RETIRADA PONTO DE INTERNET", "RETIRADA DE PONTO"),
  ("RETIRADA ORDEM DE COLETA", "RETIRADA COLETA"),
  ("RETIRADA PONTO DE INTERNET", "RETIRADA DE PONTO")]

/-- `MAPEAMENTO_DE_PARA` — `PADRONIZACAO_ASSUNTO` plus the ignored items, the
full DE→PARA reference added to the config sheet by `load_data`. -/
def MAPEAMENTO_DE_PARA : List (String × String) :=
  PADRONIZACAO_ASSUNTO ++ [("Emitir Taxa", "****"), ("POS VENDA (BRASILIA)", "****")]

/-- `Series.replace(PADRONIZACAO_ASSUNTO)` on one cell: rewrite the value when
it is a key of the override table, keep it otherwise. -/
def replaceAssunto (s : String) : String :=
  (dictLookup PADRONIZACAO_ASSUNTO s).getD s

/-- One raw row of the `OS` sheet (the service-event log), with the columns
the pipeline reads.  Nullable columns are `Option`. -/
structure OSRow where
  osId : String
  pat : Option String
  ts : Option Int
  assunto : Option String
  statusComodato : Option String
  almox : Option String
deriving DecidableEq

/-- A cleaned service event: the unit identifier is present and normalized. -/
structure Evento where
  osId : String
  pat : String
  ts : Option Int
  assunto : Option String
  statusComodato : Option String
  almox : Option String
deriving DecidableEq

/-- Conversion of a raw row whose `id_patrimonio` is present:
`astype(str)` + normalization (`dados.py` lines 137-141). -/
def toEvento (r : OSRow) (p : String) : Evento :=
  ⟨r.osId, normalizeId p, r.ts, r.assunto, r.statusComodato, r.almox⟩

/-- `os_df.dropna(subset=['id_patrimonio'])` followed by the identifier
normalization: keep the rows with a unit id, in source order. -/
def dropSemPat : List OSRow → List Evento
  | [] => []
  | r :: rs =>
    match r.pat with
    | some p => toEvento r p :: dropSemPat rs
    | none => dropSemPat rs

/-- `os_df['id_patrimonio'].isna().sum()` — rows dropped for missing unit id. -/
def countSemPat (os : List OSRow) : Nat :=
  (os.filter (fun r => r.pat.isNone)).length

/-- `drop_duplicates(subset=['ID _Ordem de Serviço'], keep='first')`:
keep the first occurrence of each event identifier, in source order. -/
def dedupOS (seen : List String) : List Evento → List Evento
  | [] => []
  | e :: rest =>
    if e.osId ∈ seen then dedupOS seen rest
    else e :: dedupOS (e.osId :: seen) rest

/-- `duplicated(subset=['ID _Ordem de Serviço'], keep='first').sum()`:
count the rows whose event identifier already occurred. -/
def countDuplicadas : List String → List Evento → Nat
  | _, [] => 0
  | seen, e :: rest =>
    if e.osId ∈ seen then countDuplicadas seen rest + 1
    else countDuplicadas (e.osId :: seen) rest

/-- `os_df['ASSUNTO PADRONIZADO'].replace(PADRONIZACAO_ASSUNTO)` on one row;
a null category stays null. -/
def replaceAssuntoEvento (e : Evento) : Evento :=
  ⟨e.osId, e.pat, e.ts, Option.map replaceAssunto e.assunto, e.statusComodato, e.almox⟩

/-- The cleaning metadata returned by `load_data` under `_limpeza`. -/
structure Limpeza where
  osTotalBruto : Nat
  osSemPatrimonio : Nat
  osDuplicadas : Nat
deriving DecidableEq

/-- The event-log cleaning pipeline of `load_data` (`dados.py` lines 131-150):
drop rows without a unit id, deduplicate by event id keeping the first
occurrence, re-standardize the category column; return the cleaned log and
the quality metrics. -/
def cleanOS (os : List OSRow) : List Evento × Limpeza :=
  let comPat := dropSemPat os
  let deduped := dedupOS [] comPat
  (deduped.map replaceAssuntoEvento,
   ⟨os.length, countSemPat os, countDuplicadas [] comPat⟩)

/-- Closing-timestamp key order used by `sort_values('data_fechamento_OS')`:
ascending, null (`NaT`) sorted last (`na_position` default). -/
def optTsLe (a b : Option Int) : Bool :=
  match a, b with
  | none, none => true
  | none, some _ => false
  | some _, none => true
  | some x, some y => decide (x ≤ y)

/-- The closing-timestamp order on events, as a relation. -/
def tsLe (a b : Evento) : Prop := optTsLe a.ts b.ts = true

instance : DecidableRel tsLe := fun a b =>
  inferInstanceAs (Decidable (optTsLe a.ts b.ts = true))

instance : IsTotal Evento tsLe :=
  ⟨fun a b => by
    unfold tsLe optTsLe
    rcases a.ts with _ | x <;> rcases b.ts with _ | y <;> simp <;> omega⟩

instance : IsTrans Evento tsLe :=
  ⟨fun a b c => by
    unfold tsLe optTsLe
    rcases a.ts with _ | x <;> rcases b.ts with _ | y <;> rcases c.ts with _ | z <;> simp <;> omega⟩

/-- Per-unit chronological sort (stable; see module comment about ties). -/
def sortEventos (evs : List Evento) : List Evento :=
  evs.insertionSort tsLe

/-- The events of one unit, in source order. -/
def eventosDe (p : String) (evs : List Evento) : List Evento :=
  evs.filter (fun e => e.pat == p)

/-- Cycle assignment for one unit:
`sort_values(['id_patrimonio','data_fechamento_OS'])` followed by
`groupby('id_patrimonio').cumcount() + 1` gives, within each unit, its events
in closing-timestamp order paired with 1, 2, 3, …. -/
def ciclosDe (p : String) (evs : List Evento) : List (Evento × Nat) :=
  let l := sortEventos (eventosDe p evs)
  l.zip (List.range' 1 l.length)

/-- `groupby('id_patrimonio')['CICLO'].last()` for one unit (`ULTIMO_CICLO`);
`none` when the unit has no events (a left-merge miss). -/
def ultimoCiclo (p : String) (evs : List Evento) : Option Nat :=
  ((ciclosDe p evs).getLast?).map (·.2)

/-- The largest cycle number assigned to a unit (0 when it has no events). -/
def maxCiclo (p : String) (evs : List Evento) : Nat :=
  ((ciclosDe p evs).map (·.2)).foldr max 0

/-- `'REUTILIZADO' if pd.notna(x) and x > 1 else 'NOVO'` applied to
`ULTIMO_CICLO` (`dados.py` lines 162-164, `atualizar_mes.py` lines 271-273). -/
def statusEquipamento (ultimo : Option Nat) : String :=
  match ultimo with
  | some x => if x > 1 then "REUTILIZADO" else "NOVO"
  | none => "NOVO"

/-- The last non-null value in a list of cells: the semantics of one column of
`groupby('id_patrimonio').last()` for a group whose rows are listed in the
sorted order. -/
def lastSome : List (Option α) → Option α
  | [] => none
  | o :: rest =>
    match lastSome rest with
    | some v => some v
    | none => o

/-- One row of the `NOTAS` sheet (the invoice registry), with the columns
`recalcular_relatorio` reads. -/
structure NotaRow where
  idPatrimonio : String
  numeroNF : String
  dataNF : Option Int
  descricao : String
  serie : String
  mac : String
deriving DecidableEq

/-- One row of the recomputed `RELATORIO` sheet (the state table). -/
structure RelRow where
  nf : String
  dataNF : Option Int
  serie : String
  mac : String
  patrimonio : String
  descricao : String
  assuntoOS : String
  dataUltimaOS : Option Int
  statusComodato : String
  almoxarifado : String
  statusEquipamento : String
  localEquipamento : String
deriving DecidableEq

/-- `inferir_local` (`atualizar_mes.py` lines 208-222): the ordered location
cascade over the row's `STATUS COMODATO` and `ALMOXARIFADO` texts. -/
def inferir_local (status almox : String) : String :=
  if containsStr (upperStr almox) "RMA" then "RMA"
  else if containsStr status "Emprestado" then "INSTALADO"
  else if containsStr almox "Descontinuado" || containsStr (upperStr almox) "DESCONTINUADO" then
    "DESCONTINUADO"
  else if containsStr (upperStr almox) "ALMOX" || containsStr (upperStr almox) "PRINCIPAL"
      || containsStr (upperStr almox) "DISTRIBUIC" || containsStr (upperStr almox) "CONFERIDO" then
    "EM ESTOQUE"
  else if status == "Sem Uso" then "COM TÉCNICO"
  else "COM TÉCNICO"

/-- The cleaning `recalcular_relatorio` applies to the `OS` sheet before its
lookups (`atualizar_mes.py` lines 187-188): drop rows without a unit id and
normalize the identifier.  It does not deduplicate and does not rewrite the
category column. -/
def cleanForRecalc (os : List OSRow) : List Evento :=
  dropSemPat os

/-- One state-table row built by `recalcular_relatorio` for one invoice-registry
row: the left merges with `ultima_os` (per-column last non-null value over the
unit's events in closing-timestamp order) and with `ultimo_ciclo`, the
fill-ins for merge misses (`SEM OS`, `Sem Uso`, empty warehouse), the canonical
re-standardization of `ASSUNTO OS`, and the two derived columns. -/
def relRowFor (n : NotaRow) (evs : List Evento) : RelRow :=
  let p := normalizeId n.idPatrimonio
  let sorted := sortEventos (eventosDe p evs)
  let status := (lastSome (sorted.map (·.statusComodato))).getD "Sem Uso"
  let almox := (lastSome (sorted.map (·.almox))).getD ""
  ⟨n.numeroNF, n.dataNF, n.serie, n.mac, p, n.descricao,
   replaceAssunto ((lastSome (sorted.map (·.assunto))).getD "SEM OS"),
   lastSome (sorted.map (·.ts)),
   status, almox,
   statusEquipamento (ultimoCiclo p evs),
   inferir_local status almox⟩

/-- `recalcular_relatorio` (`atualizar_mes.py` lines 172-301): rebuild the
state table from the invoice registry and the event log, one row per
invoice-registry row. -/
def recalcRelatorio (notas : List NotaRow) (os : List OSRow) : List RelRow :=
  notas.map (fun n => relRowFor n (cleanForRecalc os))

/-- The workbook: the sheets `recalcular_relatorio` reads (`NOTAS`, `OS`,
`config`) plus the `RELATORIO` sheet it replaces. -/
structure Workbook where
  notas : List NotaRow
  osSheet : List OSRow
  config : List (String × String)
  relatorio : List RelRow
deriving DecidableEq

/-- Replace the `RELATORIO` sheet of the workbook. -/
def setRelatorio (wb : Workbook) (r : List RelRow) : Workbook :=
  ⟨wb.notas, wb.osSheet, wb.config, r⟩

/-- One full `recalcular_relatorio` run on the workbook file: delete the
existing `RELATORIO` sheet and write the recomputed one; the other sheets are
preserved. -/
def applyRecalc (wb : Workbook) : Workbook :=
  setRelatorio wb (recalcRelatorio wb.notas wb.osSheet)

/-- The maintained DE→PARA map of the config sheet, as built by
`dict(zip(config['DE'], config['PARA']))` in `padronizar_colunas`
(`atualizar_mes.py` line 109); the config sheet is a list of (DE, PARA) rows. -/
def assuntoMapOf (config : List (String × String)) (de : String) : Option String :=
  dictLookup config de

/-- The `ASSUNTO PADRONIZADO` value `padronizar_colunas` computes for one raw
`Descrição Assunto` when the standardized column is absent from the monthly
file (`atualizar_mes.py` lines 107-122): map through the maintained config
table, default `****` for unmapped values, then apply the canonical override
`replace` to the result. -/
def padronizar_colunas_assunto (config : List (String × String)) (descricaoAssunto : String) :
    String :=
  replaceAssunto ((assuntoMapOf config descricaoAssunto).getD "****")

/-- The `ASSUNTO PADRONIZADO` value `padronizar_colunas` computes when the
monthly file already carries the standardized column (`atualizar_mes.py`
line 122): only the canonical override `replace` is applied. -/
def padronizar_colunas_existente (assunto : String) : String :=
  replaceAssunto assunto

/-- The location cascade as the spec words it: an ordered list of
(predicate, result) rules over the (comodato-status, warehouse-location)
texts, evaluated first-match-wins with default `COM TÉCNICO`.  Modelled from
the spec for comparison with `inferir_local`. -/
def regrasCascata : List ((String × String → Bool) × String) := [
  (fun sa => containsStr (upperStr sa.2) "RMA", "RMA"),
  (fun sa => containsStr sa.1 "Emprestado", "INSTALADO"),
  (fun sa => containsStr sa.2 "Descontinuado" || containsStr (upperStr sa.2) "DESCONTINUADO",
    "DESCONTINUADO"),
  (fun sa => containsStr (upperStr sa.2) "ALMOX" || containsStr (upperStr sa.2) "PRINCIPAL"
      || containsStr (upperStr sa.2) "DISTRIBUIC" || containsStr (upperStr sa.2) "CONFERIDO",
    "EM ESTOQUE"),
  (fun sa => sa.1 == "Sem Uso", "COM TÉCNICO")]

/-- First-match evaluation of an ordered rule cascade. -/
def avaliaCascata : List ((String × String → Bool) × String) → String × String → String
  | [], _ => "COM TÉCNICO"
  | r :: rest, sa => if r.1 sa then r.2 else avaliaCascata rest sa

/-- The distinct unit identifiers of the cleaned event log, first occurrence
order (the groups of `groupby('id_patrimonio')`). -/
def unidades (evs : List Evento) : List String :=
  (evs.map (·.pat)).dedup

/-- The cleaned, cycle-annotated `os` table returned by `load_data`: every
event paired with its per-unit cycle number. -/
def osComCiclo (evs : List Evento) : List (Evento × Nat) :=
  (unidades evs).flatMap (fun p => ciclosDe p evs)

/-- The full `os` output of `load_data` for a raw `OS` sheet. -/
def osTable (os : List OSRow) : List (Evento × Nat) :=
  osComCiclo (cleanOS os).1

/-- `data_fechamento_OS >= data_inicio` with pandas null semantics: a
comparison against `NaT` is false. -/
def tsGeB (ts : Option Int) (a : Int) : Bool :=
  match ts with
  | some t => decide (a ≤ t)
  | none => false

/-- `data_fechamento_OS <= data_fim` with pandas null semantics. -/
def tsLeB (ts : Option Int) (b : Int) : Bool :=
  match ts with
  | some t => decide (t ≤ b)
  | none => false

/-- `get_os_periodo` (`dados.py` lines 258-263): the events whose closing
timestamp lies in the inclusive period. -/
def get_os_periodo (os : List (Evento × Nat)) (dataInicio dataFim : Int) :
    List (Evento × Nat) :=
  os.filter (fun r => tsGeB r.1.ts dataInicio && tsLeB r.1.ts dataFim)

/-- `ASSUNTO PADRONIZADO.str.contains('INSTALAC', case=False, na=False)`
on one event: false for a null category. -/
def assuntoContemInstalac (e : Evento) : Bool :=
  match e.assunto with
  | some a => containsStr (upperStr a) "INSTALAC"
  | none => false

/-- The installation events of a period, as selected by `calcular_ativacoes`
(`pages/1_Analise_Mensal.py` lines 37-40). -/
def ativacoesEventos (os : List (Evento × Nat)) (dataInicio dataFim : Int) :
    List (Evento × Nat) :=
  (get_os_periodo os dataInicio dataFim).filter (fun r => assuntoContemInstalac r.1)

/-- The period's events of one exact canonical type, as selected by
`calcular_manutencao` (`pages/1_Analise_Mensal.py` line 112); the equality
against a null category is false. -/
def manutEventos (os : List (Evento × Nat)) (dataInicio dataFim : Int) (tipo : String) :
    List (Evento × Nat) :=
  (get_os_periodo os dataInicio dataFim).filter (fun r => r.1.assunto == some tipo)

/-- The per-type result record of `calcular_manutencao`. -/
structure ManutTipo where
  total : Nat
  novos : Nat
  reutilizados : Nat
  pctNovos : ℚ
  pctReutilizados : ℚ
deriving DecidableEq

/-- `calcular_manutencao` for one type (`pages/1_Analise_Mensal.py`
lines 107-123): counts by cycle and zero-guarded percentages. -/
def calcular_manutencao (os : List (Evento × Nat)) (dataInicio dataFim : Int)
    (tipo : String) : ManutTipo :=
  let osTipo := manutEventos os dataInicio dataFim tipo
  let total := osTipo.length
  let novos := (osTipo.filter (fun r => r.2 == 1)).length
  let reutilizados := (osTipo.filter (fun r => decide (1 < r.2))).length
  ⟨total, novos, reutilizados,
   if total > 0 then (novos : ℚ) / (total : ℚ) else 0,
   if total > 0 then (reutilizados : ℚ) / (total : ℚ) else 0⟩

/-- One row of the per-invoice summary of `gerar_resumo_nf`. -/
structure ResumoNF where
  comprados : Nat
  ativadosNovos : Nat
  ativadosReutil : Nat
  emEstoque : Nat
  emRma : Nat
  comTecnico : Nat
  taxaAtivacao : ℚ
  percEstoque : ℚ
  percRma : ℚ
deriving DecidableEq

/-- The rows of the state table belonging to one invoice+model grouping. -/
def grupoNF (relatorio : List RelRow) (nf modelo : String) : List RelRow :=
  relatorio.filter (fun r => r.nf == nf && r.descricao == modelo)

/-- `gerar_resumo_nf` for one invoice+model grouping (`Visao_Geral.py`
lines 68-99): counts by location/status and zero-guarded rates. -/
def gerar_resumo_nf (relatorio : List RelRow) (nf modelo : String) : ResumoNF :=
  let dfNf := grupoNF relatorio nf modelo
  let comprados := dfNf.length
  let ativadosNovos := (dfNf.filter
    (fun r => r.localEquipamento == "INSTALADO" && r.statusEquipamento == "NOVO")).length
  let ativadosReutil := (dfNf.filter
    (fun r => r.localEquipamento == "INSTALADO" && r.statusEquipamento == "REUTILIZADO")).length
  let emEstoque := (dfNf.filter (fun r => r.localEquipamento == "EM ESTOQUE")).length
  let emRma := (dfNf.filter (fun r => r.localEquipamento == "RMA")).length
  let comTecnico := (dfNf.filter (fun r => r.localEquipamento == "COM TÉCNICO")).length
  ⟨comprados, ativadosNovos, ativadosReutil, emEstoque, emRma, comTecnico,
   if comprados > 0 then (ativadosNovos : ℚ) / (comprados : ℚ) else 0,
   if comprados > 0 then (emEstoque : ℚ) / (comprados : ℚ) else 0,
   if comprados > 0 then (emRma : ℚ) / (comprados : ℚ) else 0⟩

/-- `taxa_utilizacao` of `calcular_kpis_parque` (`Visao_Geral.py`
lines 39-41): installed over total invoiced, zero-guarded. -/
def taxa_utilizacao (relatorio : List RelRow) : ℚ :=
  let instalados := (relatorio.filter (fun r => r.localEquipamento == "INSTALADO")).length
  let totalComNf := relatorio.length
  if totalComNf > 0 then (instalados : ℚ) / (totalComNf : ℚ) * 100 else 0

/-- `Taxa` of one `calcular_ativacoes` row (`pages/1_Analise_Mensal.py`
line 57): activated over purchased, zero-guarded. -/
def taxa_ativacao_nf (ativados totalNf : Nat) : ℚ :=
  if totalNf > 0 then (ativados : ℚ) / (totalNf : ℚ) else 0

/-- `cobertura_relatorio` of `calcular_cruzamentos` (`pages/2_Auditoria.py`
line 135): state-table coverage of the active contract units, zero-guarded. -/
def cobertura_relatorio (patAtivos patRel : List String) : ℚ :=
  if patAtivos.length > 0 then
    ((patAtivos.filter (fun p => p ∈ patRel)).length : ℚ) / (patAtivos.length : ℚ) * 100
  else 0

/-- The audit finding `pat_os_sem_relatorio` of `calcular_integridade`
(`pages/2_Auditoria.py` line 41): unit identifiers with events but no
state-table row (set difference). -/
def pat_os_sem_relatorio (patRel patOs : List String) : List String :=
  patOs.filter (fun p => p ∉ patRel)

/-! ### Concrete inputs used in counterexamples and witnesses -/

/-- Invoice-registry row for unit `A1` (spec Scenario 1), with no events. -/
def notaA1 : NotaRow := ⟨"A1", "100", some 20240110, "X", "S1", "M1"⟩

/-- A config sheet whose maintained table maps the discontinued raw category
to a value outside the override vocabulary. -/
def cfgLegado : List (String × String) :=
  [("Instalação Internet (descontinuado)", "LEGADO")]

/-- A config sheet whose maintained table maps the discontinued raw category
to itself. -/
def cfgIdentidade : List (String × String) :=
  [("Instalação Internet (descontinuado)", "Instalação Internet (descontinuado)")]

/-- Unit 7: an early event whose warehouse text mentions RMA, with a null
comodato status. -/
def osRmaAntiga : OSRow := ⟨"OS-1", some "7", some 1, some "INSTALACAO", none, some "RMA SP"⟩

/-- Unit 7: the strictly latest event, with a null warehouse text. -/
def osUltima : OSRow := ⟨"OS-2", some "7", some 2, some "MANUTENCAO", some "Sem Uso", none⟩

/-- Invoice-registry row for unit 7. -/
def nota7 : NotaRow := ⟨"7", "200", some 20240101, "X", "S2", "M2"⟩

/-- Invoice-registry row for unit 9. -/
def nota9 : NotaRow := ⟨"9", "300", some 20240201, "X", "S3", "M3"⟩

/-- Unit 9: a single event carrying both status and warehouse texts. -/
def osSoRma : OSRow := ⟨"OS-9", some "9", some 1, none, some "Sem Uso", some "RMA CENTRO"⟩

/-- Event-log row with event id OS-555 and no unit identifier. -/
def osDupNull : OSRow := ⟨"OS-555", none, some 1, none, none, none⟩

/-- Event-log row with event id OS-555 linked to unit 77. -/
def osDupOk : OSRow := ⟨"OS-555", some "77", some 2, none, none, none⟩

/-- First of two well-formed OS-555 rows. -/
def osDupA : OSRow := ⟨"OS-555", some "1", some 10, none, none, none⟩

/-- Second of two well-formed OS-555 rows. -/
def osDupB : OSRow := ⟨"OS-555", some "2", some 20, none, none, none⟩

/-- A cycle-annotated maintenance event closing at timestamp 5. -/
def evPer : Evento × Nat := (⟨"O1", "P", some 5, some "MANUTENCAO", none, none⟩, 1)

/-! ### Helper lemmas -/

theorem lastSome_map_getLast {l : List β} {e : β} {f : β → Option γ} {v : γ}
    (h : l.getLast? = some e) (hv : f e = some v) :
    lastSome (l.map f) = some v := by
  induction l with
  | nil => simp at h
  | cons a rest ih =>
    cases rest with
    | nil =>
      simp only [List.getLast?_singleton, Option.some.injEq] at h
      subst h
      simp [lastSome, hv]
    | cons b t =>
      rw [List.getLast?_cons_cons] at h
      have := ih h
      simp only [List.map_cons, lastSome] at this ⊢
      rw [this]

theorem dedupOS_length_add_count (l : List Evento) :
    ∀ seen, (dedupOS seen l).length + countDuplicadas seen l = l.length := by
  induction l with
  | nil => intro seen; rfl
  | cons e rest ih =>
    intro seen
    by_cases h : e.osId ∈ seen
    · simp only [dedupOS, countDuplicadas, if_pos h, List.length_cons]
      have := ih seen
      omega
    · simp only [dedupOS, countDuplicadas, if_neg h, List.length_cons]
      have := ih (e.osId :: seen)
      omega

theorem dedupOS_find? (l : List Evento) :
    ∀ (seen : List String) (i : String), i ∉ seen →
      (dedupOS seen l).find? (fun e => e.osId == i) = l.find? (fun e => e.osId == i) := by
  induction l with
  | nil => intro seen i _; rfl
  | cons e rest ih =>
    intro seen i hi
    by_cases h : e.osId ∈ seen
    · have hne : ¬ ((fun e => e.osId == i) e = true) := by
        simp only [beq_iff_eq]
        intro he
        exact hi (he ▸ h)
      simp only [dedupOS, if_pos h]
      rw [@List.find?_cons_of_neg _ (fun e => e.osId == i) e rest hne]
      exact ih seen i hi
    · by_cases he : e.osId = i
      · simp only [dedupOS, if_neg h]
        rw [@List.find?_cons_of_pos _ (fun e => e.osId == i) e _ (by simpa using he),
          @List.find?_cons_of_pos _ (fun e => e.osId == i) e _ (by simpa using he)]
      · simp only [dedupOS, if_neg h]
        rw [@List.find?_cons_of_neg _ (fun e => e.osId == i) e _ (by simpa using he),
          @List.find?_cons_of_neg _ (fun e => e.osId == i) e _ (by simpa using he)]
        refine ih (e.osId :: seen) i ?_
        intro hmem
        rcases List.mem_cons.mp hmem with h1 | h2
        · exact he h1.symm
        · exact hi h2

theorem dedupOS_nodup_ids (l : List Evento) :
    ∀ seen, (((dedupOS seen l).map (·.osId)).Nodup ∧
      ∀ s ∈ seen, s ∉ (dedupOS seen l).map (·.osId)) := by
  induction l with
  | nil =>
    intro seen
    exact ⟨by simp [dedupOS], by simp [dedupOS]⟩
  | cons e rest ih =>
    intro seen
    by_cases h : e.osId ∈ seen
    · simpa only [dedupOS, if_pos h] using ih seen
    · have hih := ih (e.osId :: seen)
      constructor
      · simp only [dedupOS, if_neg h, List.map_cons, List.nodup_cons]
        exact ⟨hih.2 e.osId (List.mem_cons_self _ _), hih.1⟩
      · intro s hs
        simp only [dedupOS, if_neg h, List.map_cons, List.mem_cons, not_or]
        constructor
        · intro he
          exact h (he ▸ hs)
        · exact hih.2 s (List.mem_cons_of_mem _ hs)

theorem sorted_sortEventos (evs : List Evento) : (sortEventos evs).Sorted tsLe :=
  List.sorted_insertionSort tsLe evs

theorem length_sortEventos (evs : List Evento) :
    (sortEventos evs).length = evs.length :=
  List.length_insertionSort tsLe evs

theorem ciclosDe_map_snd (p : String) (evs : List Evento) :
    (ciclosDe p evs).map (·.2) = List.range' 1 (eventosDe p evs).length := by
  unfold ciclosDe
  rw [← length_sortEventos (eventosDe p evs)]
  exact List.map_snd_zip _ _ (by simp [List.length_range'])

theorem ciclosDe_map_fst (p : String) (evs : List Evento) :
    (ciclosDe p evs).map (·.1) = sortEventos (eventosDe p evs) := by
  unfold ciclosDe
  exact List.map_fst_zip _ _ (by simp [List.length_range'])

theorem range'_one_getLast (n : Nat) :
    (List.range' 1 n).getLast? = if n = 0 then none else some n := by
  induction n with
  | zero => rfl
  | succ m _ =>
    rw [List.range'_1_concat, List.getLast?_concat]
    simp [Nat.add_comm]

theorem range'_one_foldr_max (n : Nat) : ∀ a : Nat,
    (List.range' 1 n).foldr max a = max a n := by
  induction n with
  | zero => intro a; simp
  | succ m ih =>
    intro a
    rw [List.range'_1_concat, List.foldr_append]
    rw [ih]
    simp only [List.foldr_cons, List.foldr_nil]
    omega

theorem ultimoCiclo_eq (p : String) (evs : List Evento) :
    ultimoCiclo p evs =
      if (eventosDe p evs).length = 0 then none else some (eventosDe p evs).length := by
  unfold ultimoCiclo
  have h1 : ((ciclosDe p evs).map (·.2)).getLast? = ((ciclosDe p evs).getLast?).map (·.2) :=
    List.getLast?_map _ _
  rw [← h1, ciclosDe_map_snd, range'_one_getLast]

theorem maxCiclo_eq (p : String) (evs : List Evento) :
    maxCiclo p evs = (eventosDe p evs).length := by
  unfold maxCiclo
  rw [ciclosDe_map_snd]
  have := range'_one_foldr_max (eventosDe p evs).length 0
  simpa using this

theorem relRowFor_no_eventos (n : NotaRow) (evs : List Evento)
    (h : eventosDe (normalizeId n.idPatrimonio) evs = []) :
    relRowFor n evs =
      ⟨n.numeroNF, n.dataNF, n.serie, n.mac, normalizeId n.idPatrimonio, n.descricao,
       "SEM OS", none, "Sem Uso", "", "NOVO", "COM TÉCNICO"⟩ := by
  have h2 : ultimoCiclo (normalizeId n.idPatrimonio) evs = none := by
    rw [ultimoCiclo_eq, h]
    rfl
  simp only [relRowFor, h, h2]
  rfl

/-! ### Claims -/

/-- C1: the claim says a unit with zero service events is given the distinct
location state `No Service Record` and is never recorded with the cascade
default `COM TÉCNICO`.  Counterexample: recomputing the state table for the
invoice-registry unit `A1` with an empty event log records
`LOCAL_EQUIPAMENTO = "COM TÉCNICO"`; the distinct no-event marker `SEM OS`
only appears in the `ASSUNTO OS` column. -/
theorem c1_counterexample :
    (recalcRelatorio [notaA1] []).map (·.localEquipamento) = ["COM TÉCNICO"]
    ∧ (recalcRelatorio [notaA1] []).map (·.assuntoOS) = ["SEM OS"]
    ∧ ("COM TÉCNICO" : String) ≠ "No Service Record" := by
  decide

/-- C1 (amended): an invoice-registry unit with zero service events gets the
distinct marker `SEM OS` in the service-subject column `ASSUNTO OS` of the
recomputed state table, while its `LOCAL_EQUIPAMENTO` falls through the
cascade (comodato status defaulted to `Sem Uso`, warehouse text to empty) to
the default `COM TÉCNICO`, and its reuse status is `NOVO`. -/
theorem c1_zero_eventos (n : NotaRow) (osRaw : List OSRow)
    (h : eventosDe (normalizeId n.idPatrimonio) (cleanForRecalc osRaw) = []) :
    (relRowFor n (cleanForRecalc osRaw)).assuntoOS = "SEM OS"
    ∧ (relRowFor n (cleanForRecalc osRaw)).localEquipamento = "COM TÉCNICO"
    ∧ (relRowFor n (cleanForRecalc osRaw)).statusEquipamento = "NOVO" := by
  rw [relRowFor_no_eventos n (cleanForRecalc osRaw) h]
  exact ⟨rfl, rfl, rfl⟩

/-- C1 witness: the amended statement instantiated on unit `A1` with an empty
event log. -/
theorem c1_witness :
    (relRowFor notaA1 (cleanForRecalc [])).assuntoOS = "SEM OS"
    ∧ (relRowFor notaA1 (cleanForRecalc [])).localEquipamento = "COM TÉCNICO" :=
  ⟨(c1_zero_eventos notaA1 [] rfl).1, (c1_zero_eventos notaA1 [] rfl).2.1⟩

/-- C2: the claim says the fixed override table takes precedence over the
maintained DE→PARA table, so `Instalação Internet (descontinuado)` normalizes
to `INSTALACAO` regardless of any maintained-table entry for that raw string.
Counterexample: `padronizar_colunas` applies the maintained table first and
the override `replace` only to its output, so with a maintained entry mapping
that raw string to `LEGADO` the result is `LEGADO`, not the override's
`INSTALACAO`, although both tables have an entry for the raw string. -/
theorem c2_counterexample :
    dictLookup PADRONIZACAO_ASSUNTO "Instalação Internet (descontinuado)" = some "INSTALACAO"
    ∧ assuntoMapOf cfgLegado "Instalação Internet (descontinuado)" = some "LEGADO"
    ∧ padronizar_colunas_assunto cfgLegado "Instalação Internet (descontinuado)" = "LEGADO"
    ∧ ("LEGADO" : String) ≠ "INSTALACAO" := by
  decide

/-- C2 (amended): vocabulary normalization applies the maintained DE→PARA
table first (unmapped raw values become `****`) and then applies the fixed
override table to the maintained result, so for every raw category with a
maintained entry the outcome is the override image of that entry's target; in
particular `Instalação Internet (descontinuado)` normalizes to `INSTALACAO`
when the maintained table maps it to itself (or to any override key with
image `INSTALACAO`), not regardless of the maintained entry. -/
theorem c2_override_depois (config : List (String × String)) (de para : String)
    (h : assuntoMapOf config de = some para) :
    padronizar_colunas_assunto config de = replaceAssunto para
    ∧ padronizar_colunas_assunto cfgIdentidade "Instalação Internet (descontinuado)"
        = "INSTALACAO" := by
  constructor
  · unfold padronizar_colunas_assunto
    rw [h]
    rfl
  · decide

/-- C2 witness: the amended statement instantiated on the maintained table
that maps the discontinued raw string to `LEGADO`. -/
theorem c2_witness :
    padronizar_colunas_assunto cfgLegado "Instalação Internet (descontinuado)"
      = replaceAssunto "LEGADO" :=
  (c2_override_depois cfgLegado "Instalação Internet (descontinuado)" "LEGADO" (by decide)).1

/-- C3: for every unit of the cleaned event log, the assigned cycle numbers
are exactly `1..N` where `N` is the unit's number of retained events (no gaps,
no repeats), assigned in closing-timestamp ascending order; an event with a
missing closing timestamp is ordered after every timestamped event of its
unit, so it receives a well-defined position. -/
theorem c3_ciclos_exatos (evs : List Evento) (p : String) :
    (ciclosDe p evs).map (·.2) = List.range' 1 (eventosDe p evs).length
    ∧ ((ciclosDe p evs).map (·.2)).Nodup
    ∧ ((ciclosDe p evs).map (·.1)).Sorted tsLe
    ∧ (ciclosDe p evs).Pairwise (fun a b => a.1.ts = none → b.1.ts = none) := by
  refine ⟨ciclosDe_map_snd p evs, ?_, ?_, ?_⟩
  · rw [ciclosDe_map_snd]
    exact List.nodup_range' _ _
  · rw [ciclosDe_map_fst]
    exact sorted_sortEventos _
  · have hs : ((ciclosDe p evs).map (·.1)).Pairwise tsLe := by
      rw [ciclosDe_map_fst]
      exact sorted_sortEventos _
    have := (List.pairwise_map).mp hs
    refine this.imp ?_
    intro a b hab hnone
    unfold tsLe optTsLe at hab
    rw [hnone] at hab
    rcases hb : b.1.ts with _ | t
    · rfl
    · rw [hb] at hab
      simp at hab

/-- C3 witness: the cycle numbers of a two-event unit are exactly 1, 2. -/
theorem c3_witness :
    (ciclosDe "7" (cleanForRecalc [osRmaAntiga, osUltima])).map (·.2)
      = List.range' 1 (eventosDe "7" (cleanForRecalc [osRmaAntiga, osUltima])).length :=
  (c3_ciclos_exatos (cleanForRecalc [osRmaAntiga, osUltima]) "7").1

/-- C4: the recomputation pipeline is deterministic and idempotent — the
state-table rebuild reads only the invoice registry, event log and config
sheets, so rebuilding twice equals rebuilding once, and the result does not
depend on any previously stored state table. -/
theorem c4_idempotente (wb : Workbook) (r : List RelRow) :
    applyRecalc (applyRecalc wb) = applyRecalc wb
    ∧ applyRecalc (setRelatorio wb r) = applyRecalc wb :=
  ⟨rfl, rfl⟩

/-- C4 witness: idempotence instantiated on a concrete one-row workbook. -/
theorem c4_witness :
    applyRecalc (applyRecalc ⟨[notaA1], [], [], []⟩) = applyRecalc ⟨[notaA1], [], [], []⟩ :=
  (c4_idempotente ⟨[notaA1], [], [], []⟩ []).1

/-- C5: the claim says the current location is derived from the unit's latest
event only.  Counterexample: the per-column last-non-null lookup of
`groupby('id_patrimonio').last()` mixes fields of different events — for
unit 7, whose strictly latest event (`OS-2`) has a null warehouse text, the
recomputed location is `RMA`, taken from the older event `OS-1`, while the
cascade on the latest event's own texts (status `Sem Uso`, warehouse filled
to empty) yields `COM TÉCNICO`. -/
theorem c5_counterexample :
    (sortEventos (eventosDe "7" (cleanForRecalc [osRmaAntiga, osUltima]))).getLast?
      = some (toEvento osUltima "7")
    ∧ (toEvento osUltima "7").almox = none
    ∧ (recalcRelatorio [nota7] [osRmaAntiga, osUltima]).map (·.localEquipamento) = ["RMA"]
    ∧ inferir_local ((toEvento osUltima "7").statusComodato.getD "Sem Uso")
        ((toEvento osUltima "7").almox.getD "") = "COM TÉCNICO"
    ∧ ("RMA" : String) ≠ "COM TÉCNICO" := by
  decide

/-- C5 (amended): the location cascade of `inferir_local` is exactly the
ordered first-match rule list of the spec (RMA, on-loan → Installed,
discontinued, warehouse vocabulary → In Stock, unused → With Technician,
default With Technician), and it is evaluated on the per-column last non-null
status and warehouse texts over the unit's events in closing-timestamp order —
which agree with the latest event's texts whenever that event carries both
fields. -/
theorem c5_cascata_ultimo :
    (∀ status almox, inferir_local status almox = avaliaCascata regrasCascata (status, almox))
    ∧ ∀ (n : NotaRow) (osRaw : List OSRow) (e : Evento) (s a : String),
        (sortEventos (eventosDe (normalizeId n.idPatrimonio) (cleanForRecalc osRaw))).getLast?
          = some e →
        e.statusComodato = some s → e.almox = some a →
        (relRowFor n (cleanForRecalc osRaw)).localEquipamento = inferir_local s a := by
  constructor
  · intro status almox
    rfl
  · intro n osRaw e s a hlast hs ha
    have h1 : lastSome ((sortEventos (eventosDe (normalizeId n.idPatrimonio)
        (cleanForRecalc osRaw))).map (·.statusComodato)) = some s :=
      lastSome_map_getLast hlast hs
    have h2 : lastSome ((sortEventos (eventosDe (normalizeId n.idPatrimonio)
        (cleanForRecalc osRaw))).map (·.almox)) = some a :=
      lastSome_map_getLast hlast ha
    have hgoal : (relRowFor n (cleanForRecalc osRaw)).localEquipamento =
        inferir_local
          ((lastSome ((sortEventos (eventosDe (normalizeId n.idPatrimonio)
            (cleanForRecalc osRaw))).map (·.statusComodato))).getD "Sem Uso")
          ((lastSome ((sortEventos (eventosDe (normalizeId n.idPatrimonio)
            (cleanForRecalc osRaw))).map (·.almox))).getD "") := rfl
    rw [hgoal, h1, h2]
    rfl

/-- C5 witness: the amended statement instantiated on unit 9, whose single
(hence latest) event carries both texts. -/
theorem c5_witness :
    (relRowFor nota9 (cleanForRecalc [osSoRma])).localEquipamento
      = inferir_local "Sem Uso" "RMA CENTRO" :=
  c5_cascata_ultimo.2 nota9 [osSoRma] (toEvento osSoRma "9") "Sem Uso" "RMA CENTRO"
    (by decide) (by decide) (by decide)

/-- C6: a unit's derived reuse status is `REUTILIZADO` exactly when its
maximum assigned cycle number exceeds 1, and `NOVO` otherwise; a unit with
zero events is `NOVO`; and the recomputed state table derives the column by
this rule from the unit's last cycle number. -/
theorem c6_novo_reutilizado (p : String) (evs : List Evento) (n : NotaRow) :
    (statusEquipamento (ultimoCiclo p evs) = "REUTILIZADO" ↔ 1 < maxCiclo p evs)
    ∧ (¬ 1 < maxCiclo p evs → statusEquipamento (ultimoCiclo p evs) = "NOVO")
    ∧ (eventosDe p evs = [] → statusEquipamento (ultimoCiclo p evs) = "NOVO")
    ∧ (relRowFor n evs).statusEquipamento
        = statusEquipamento (ultimoCiclo (normalizeId n.idPatrimonio) evs) := by
  have hlen : statusEquipamento (ultimoCiclo p evs) =
      if 1 < (eventosDe p evs).length then "REUTILIZADO" else "NOVO" := by
    rw [ultimoCiclo_eq]
    by_cases h0 : (eventosDe p evs).length = 0
    · rw [if_pos h0]
      simp [statusEquipamento, h0]
    · rw [if_neg h0]
      simp only [statusEquipamento]
  refine ⟨?_, ?_, ?_, rfl⟩
  · rw [hlen, maxCiclo_eq]
    by_cases h : 1 < (eventosDe p evs).length
    · simp [h]
    · simp only [if_neg h]
      constructor
      · intro hn
        exact absurd hn (by decide)
      · intro hn
        exact absurd hn h
  · rw [hlen, maxCiclo_eq]
    intro h
    rw [if_neg h]
  · intro h
    rw [hlen, h]
    simp

/-- C6 witness: a unit with zero events is `NOVO`. -/
theorem c6_witness :
    statusEquipamento (ultimoCiclo "P" []) = "NOVO" :=
  (c6_novo_reutilizado "P" [] notaA1).2.2.1 rfl

/-- C7: every unit identifier in the recomputed state table comes from an
invoice-registry row (the state table is invoice-registry-scoped), and a unit
identifier that has events but no state-table row is reported by the audit's
`pat_os_sem_relatorio` set-difference finding instead. -/
theorem c7_escopo_notas (notas : List NotaRow) (osRaw : List OSRow) (r : RelRow)
    (hr : r ∈ recalcRelatorio notas osRaw) :
    (∃ n ∈ notas, r.patrimonio = normalizeId n.idPatrimonio)
    ∧ ∀ (patRel patOs : List String) (p : String),
        p ∈ patOs → p ∉ patRel → p ∈ pat_os_sem_relatorio patRel patOs := by
  constructor
  · rcases List.mem_map.mp hr with ⟨n, hn, hrn⟩
    exact ⟨n, hn, by rw [← hrn]; rfl⟩
  · intro patRel patOs p hp hnp
    unfold pat_os_sem_relatorio
    rw [List.mem_filter]
    exact ⟨hp, by simpa using hnp⟩

/-- C7 witness: the scoping statement instantiated on the one-row registry. -/
theorem c7_witness :
    ∃ n ∈ [notaA1],
      (relRowFor notaA1 (cleanForRecalc [])).patrimonio = normalizeId n.idPatrimonio :=
  (c7_escopo_notas [notaA1] [] (relRowFor notaA1 (cleanForRecalc []))
    (List.mem_singleton.mpr rfl)).1

/-- C8: the claim says that for any input with exactly two rows carrying the
event identifier OS-555 the cleaner retains the first row in source order and
reports one removed duplicate.  Counterexample: when the first such row lacks
a unit identifier it is removed by the missing-unit-id step before
deduplication, so the cleaner retains the second row and reports zero removed
duplicates. -/
theorem c8_counterexample :
    osDupNull.osId = "OS-555"
    ∧ osDupOk.osId = "OS-555"
    ∧ (cleanOS [osDupNull, osDupOk]).1 = [toEvento osDupOk "77"]
    ∧ (cleanOS [osDupNull, osDupOk]).2.osDuplicadas = 0 := by
  decide

/-- C8 (amended): the cleaner deduplicates by event identifier among the rows
that carry a unit identifier (rows without one are removed beforehand and are
not counted as duplicates): it keeps, for each event identifier, the first
surviving occurrence in source order, the retained identifiers are distinct,
and the reported duplicates-removed count equals the number of rows dropped
by deduplication; in particular an input of exactly two unit-linked rows with
identifier OS-555 retains only the first and reports a count of 1. -/
theorem c8_dedup_primeira (osRaw : List OSRow) (i : String) (a b : OSRow) (pa pb : String)
    (ha : a.osId = "OS-555") (hb : b.osId = "OS-555")
    (hpa : a.pat = some pa) (hpb : b.pat = some pb) :
    ((cleanOS osRaw).1.find? (fun e => e.osId == i)
      = ((dropSemPat osRaw).find? (fun e => e.osId == i)).map replaceAssuntoEvento)
    ∧ ((cleanOS osRaw).1.map (·.osId)).Nodup
    ∧ (cleanOS osRaw).2.osDuplicadas + (cleanOS osRaw).1.length = (dropSemPat osRaw).length
    ∧ (cleanOS [a, b]).1 = [replaceAssuntoEvento (toEvento a pa)]
    ∧ (cleanOS [a, b]).2.osDuplicadas = 1 := by
  have hdp : dropSemPat [a, b] = [toEvento a pa, toEvento b pb] := by
    simp [dropSemPat, hpa, hpb]
  have hIdA : (toEvento a pa).osId = "OS-555" := ha
  have hIdB : (toEvento b pb).osId = "OS-555" := hb
  refine ⟨?_, ?_, ?_, ?_, ?_⟩
  · show ((dedupOS [] (dropSemPat osRaw)).map replaceAssuntoEvento).find? (fun e => e.osId == i)
      = ((dropSemPat osRaw).find? (fun e => e.osId == i)).map replaceAssuntoEvento
    rw [List.find?_map]
    have hc : ((fun e => e.osId == i) ∘ replaceAssuntoEvento) = (fun e => e.osId == i) := rfl
    rw [hc, dedupOS_find? (dropSemPat osRaw) [] i (by simp)]
  · show (((dedupOS [] (dropSemPat osRaw)).map replaceAssuntoEvento).map (·.osId)).Nodup
    have hc : ((fun e : Evento => e.osId) ∘ replaceAssuntoEvento) = (fun e : Evento => e.osId) :=
      rfl
    rw [List.map_map, hc]
    exact (dedupOS_nodup_ids (dropSemPat osRaw) []).1
  · show countDuplicadas [] (dropSemPat osRaw)
        + ((dedupOS [] (dropSemPat osRaw)).map replaceAssuntoEvento).length
      = (dropSemPat osRaw).length
    rw [List.length_map]
    have := dedupOS_length_add_count (dropSemPat osRaw) []
    omega
  · show ((dedupOS [] (dropSemPat [a, b])).map replaceAssuntoEvento)
      = [replaceAssuntoEvento (toEvento a pa)]
    rw [hdp]
    simp [dedupOS, hIdA, hIdB]
  · show countDuplicadas [] (dropSemPat [a, b]) = 1
    rw [hdp]
    simp [countDuplicadas, hIdA, hIdB]

/-- C8 witness: the amended statement instantiated on two unit-linked OS-555
rows. -/
theorem c8_witness :
    (cleanOS [osDupA, osDupB]).1 = [replaceAssuntoEvento (toEvento osDupA "1")]
    ∧ (cleanOS [osDupA, osDupB]).2.osDuplicadas = 1 :=
  ⟨(c8_dedup_primeira [] "x" osDupA osDupB "1" "2" rfl rfl rfl rfl).2.2.2.1,
   (c8_dedup_primeira [] "x" osDupA osDupB "1" "2" rfl rfl rfl rfl).2.2.2.2⟩

/-- C9: every rate of the aggregation layer — the per-invoice activation rate
and stock/RMA percentages, the utilization rate, the maintenance new/reused
percentages, and the audit coverage percentage — yields the defined value 0
for a grouping whose denominator is 0, instead of failing. -/
theorem c9_taxas_denominador_zero :
    (∀ (relatorio : List RelRow) (nf modelo : String), grupoNF relatorio nf modelo = [] →
      (gerar_resumo_nf relatorio nf modelo).taxaAtivacao = 0
      ∧ (gerar_resumo_nf relatorio nf modelo).percEstoque = 0
      ∧ (gerar_resumo_nf relatorio nf modelo).percRma = 0)
    ∧ (∀ relatorio : List RelRow, relatorio.length = 0 → taxa_utilizacao relatorio = 0)
    ∧ (∀ (os : List (Evento × Nat)) (dataInicio dataFim : Int) (tipo : String),
        manutEventos os dataInicio dataFim tipo = [] →
        (calcular_manutencao os dataInicio dataFim tipo).pctNovos = 0
        ∧ (calcular_manutencao os dataInicio dataFim tipo).pctReutilizados = 0)
    ∧ (∀ ativados : Nat, taxa_ativacao_nf ativados 0 = 0)
    ∧ (∀ patRel : List String, cobertura_relatorio [] patRel = 0) := by
  refine ⟨?_, ?_, ?_, ?_, ?_⟩
  · intro relatorio nf modelo h
    unfold gerar_resumo_nf
    rw [h]
    exact ⟨rfl, rfl, rfl⟩
  · intro relatorio h
    unfold taxa_utilizacao
    rw [h]
    rfl
  · intro os dataInicio dataFim tipo h
    unfold calcular_manutencao
    rw [h]
    exact ⟨rfl, rfl⟩
  · intro ativados
    rfl
  · intro patRel
    rfl

/-- C9 witness: the per-invoice rates instantiated on an empty grouping. -/
theorem c9_witness :
    (gerar_resumo_nf [] "100" "X").taxaAtivacao = 0
    ∧ taxa_utilizacao [] = 0 :=
  ⟨(c9_taxas_denominador_zero.1 [] "100" "X" rfl).1,
   c9_taxas_denominador_zero.2.1 [] rfl⟩

/-- C10: the period filter on the event log keeps exactly the events whose
closing timestamp is present and lies within the inclusive period bounds; in
particular every event counted by the period-scoped activation, maintenance
and withdrawal queries has a non-null closing timestamp, so an event with a
missing `data_fechamento_OS` belongs to no period. -/
theorem c10_periodo_inclusivo (os : List (Evento × Nat)) (dataInicio dataFim : Int)
    (r : Evento × Nat) :
    (r ∈ get_os_periodo os dataInicio dataFim ↔
      r ∈ os ∧ ∃ t, r.1.ts = some t ∧ dataInicio ≤ t ∧ t ≤ dataFim)
    ∧ (r ∈ ativacoesEventos os dataInicio dataFim → r.1.ts ≠ none)
    ∧ (∀ tipo, r ∈ manutEventos os dataInicio dataFim tipo → r.1.ts ≠ none) := by
  have hiff : r ∈ get_os_periodo os dataInicio dataFim ↔
      r ∈ os ∧ ∃ t, r.1.ts = some t ∧ dataInicio ≤ t ∧ t ≤ dataFim := by
    unfold get_os_periodo
    rw [List.mem_filter]
    constructor
    · rintro ⟨hm, hcond⟩
      refine ⟨hm, ?_⟩
      rcases ht : r.1.ts with _ | t
      · rw [Bool.and_eq_true] at hcond
        unfold tsGeB at hcond
        rw [ht] at hcond
        simp at hcond
      · refine ⟨t, rfl, ?_, ?_⟩
        · have := (Bool.and_eq_true _ _).mp hcond |>.1
          unfold tsGeB at this
          rw [ht] at this
          simpa using this
        · have := (Bool.and_eq_true _ _).mp hcond |>.2
          unfold tsLeB at this
          rw [ht] at this
          simpa using this
    · rintro ⟨hm, t, ht, h1, h2⟩
      refine ⟨hm, ?_⟩
      rw [Bool.and_eq_true]
      constructor
      · unfold tsGeB
        rw [ht]
        simpa using h1
      · unfold tsLeB
        rw [ht]
        simpa using h2
  have hper : ∀ s ∈ get_os_periodo os dataInicio dataFim, s.1.ts ≠ (none : Option Int) := by
    intro s hs
    have hs2 := (by
      unfold get_os_periodo at hs
      exact (List.mem_filter.mp hs).2)
    rcases ht : s.1.ts with _ | t
    · rw [Bool.and_eq_true] at hs2
      unfold tsGeB at hs2
      rw [ht] at hs2
      simp at hs2
    · simp
  refine ⟨hiff, ?_, ?_⟩
  · intro hr
    unfold ativacoesEventos at hr
    exact hper r (List.mem_filter.mp hr).1
  · intro tipo hr
    unfold manutEventos at hr
    exact hper r (List.mem_filter.mp hr).1

/-- C10 witness: the characterization and null-exclusion instantiated on a
one-event log and the period 0..10. -/
theorem c10_witness :
    evPer.1.ts ≠ none ∧ evPer ∈ get_os_periodo [evPer] 0 10 :=
  ⟨(c10_periodo_inclusivo [evPer] 0 10 evPer).2.2 "MANUTENCAO" (by decide),
   (c10_periodo_inclusivo [evPer] 0 10 evPer).1.mpr
     ⟨by decide, 5, rfl, by decide, by decide⟩⟩

end Equip
